import Mathlib

/-!
Shallow embedding of the Catch2 session orchestrator
(`src/include/catch_session.hpp`): totals accumulation, reporter
composition, the filename tagger, the run loop with abort propagation,
and the `Session` life cycle (command-line application, startup-exception
handling, the internal run procedure and exit-code derivation).

External collaborators (the clara argument parser, the tag-expression
compiler, the reporter registry, the listing facility and the execution
engine `RunContext`) are not part of the source file; they enter the
embedding as explicit parameters, and observable effects (stream writes,
reporter notifications, test execution) are recorded in an event trace.
-/

/-- Assertion or test-case counters (collaborator type `Counts`). -/
structure Counts where
  passed : Nat
  failed : Nat
  deriving DecidableEq, Repr

/-- Aggregate run totals (collaborator type `Totals`): assertion counters
and test-case counters, merged pointwise by `operator+=`. -/
structure Totals where
  assertions : Counts
  testCases : Counts
  deriving DecidableEq, Repr

def Counts.add (a b : Counts) : Counts :=
  ⟨a.passed + b.passed, a.failed + b.failed⟩

instance : Add Counts := ⟨Counts.add⟩

def Totals.add (a b : Totals) : Totals :=
  ⟨a.assertions + b.assertions, a.testCases + b.testCases⟩

instance : Add Totals := ⟨Totals.add⟩

/-- A default-constructed `Totals`: all counters zero. -/
def Totals.zero : Totals := ⟨⟨0, 0⟩, ⟨0, 0⟩⟩

/-- Fold of a list of per-case totals with the running-accumulator merge,
as performed by `totals += context.runTest( testCase )`. -/
def Totals.sum (l : List Totals) : Totals :=
  l.foldl (· + ·) Totals.zero

/-- Source location of a test case declaration (`testCase.lineInfo`). -/
structure SourceLineInfo where
  file : String
  line : Nat
  deriving DecidableEq, Repr

/-- One registered test case: display name, ordered tag sequence and the
declaring source location. -/
structure TestCase where
  name : String
  tags : List String
  lineInfo : SourceLineInfo
  deriving DecidableEq, Repr

/-- Collaborator operation `setTags`: replaces the tag sequence of a test
case (the tagger passes the old tags extended by one element). -/
def setTags (tc : TestCase) (ts : List String) : TestCase :=
  { tc with tags := ts }

/-- Characters accepted as path separators by the filename tagger
(`find_last_of( "\\/" )`). -/
def isPathSep (c : Char) : Bool :=
  c = '\\' || c = '/'

/-- Index of the last character satisfying `p`, mirroring
`std::string::find_last_of` (`none` plays the role of `npos`). -/
def findLastOf (p : Char → Bool) : List Char → Option Nat
  | [] => none
  | c :: cs =>
    match findLastOf p cs with
    | some i => some (i + 1)
    | none => if p c then some 0 else none

/-- Stem computation of `applyFilenamesAsTags`: strip everything up to and
including the last path separator, then strip everything from the last
dot onward. -/
def filenameStem (file : String) : String :=
  let cs := file.data
  let cs :=
    match findLastOf isPathSep cs with
    | some lastSlash => cs.drop (lastSlash + 1)
    | none => cs
  let cs :=
    match findLastOf (fun c => c = '.') cs with
    | some lastDot => cs.take lastDot
    | none => cs
  String.mk cs

/-- `applyFilenamesAsTags`: for every registered test case, append the tag
built from the sentinel character `#` and the stem of the declaring file
to the existing tag sequence (via `tags.push_back` and `setTags`). -/
def applyFilenamesAsTags (tests : List TestCase) : List TestCase :=
  tests.map fun tc =>
    setTags tc (tc.tags ++ [String.mk ('#' :: (filenameStem tc.lineInfo.file).data)])

/-- A compiled test filter (collaborator type `TestSpec`): whether any
filter clause is present, and the compiled match predicate (the `config`
argument of `matchTest` is folded into the predicate). -/
structure TestSpec where
  hasFilters : Bool
  matchesCase : TestCase → Bool

/-- Modelled from the spec: a hidden tag is one beginning with the
hidden-tag sentinel `.` (the tag class selected by the expression `[.]`;
the tag-expression compiler itself is an external collaborator). -/
def isHiddenTag (t : String) : Bool :=
  t.startsWith "."

/-- Modelled from the spec: the `TestSpec` obtained by compiling the fixed
expression `~[.]` — match every test case except those carrying a tag
beginning with the hidden-tag sentinel (`TestSpecParser` is an external
collaborator absent from the source file). -/
def defaultTestSpec : TestSpec :=
  { hasFilters := true
    matchesCase := fun tc => !(tc.tags.any isHiddenTag) }

/-- `WaitForKeypress` flag values (never / before start / before exit /
both), as held in `ConfigData`. -/
inductive WaitForKeypress
  | never
  | beforeStart
  | beforeExit
  | beforeStartAndExit
  deriving DecidableEq, Repr

/-- Test of the `WaitForKeypress::BeforeStart` bit. -/
def WaitForKeypress.hasBeforeStart : WaitForKeypress → Bool
  | .beforeStart => true
  | .beforeStartAndExit => true
  | _ => false

/-- Test of the `WaitForKeypress::BeforeExit` bit. -/
def WaitForKeypress.hasBeforeExit : WaitForKeypress → Bool
  | .beforeExit => true
  | .beforeStartAndExit => true
  | _ => false

/-- The mutable configuration-data holder `ConfigData` (the fields the
orchestrator consults). -/
structure ConfigData where
  name : String
  showHelp : Bool
  libIdentify : Bool
  filenamesAsTags : Bool
  waitForKeypress : WaitForKeypress
  reporterNames : List String
  testSpec : TestSpec

/-- The immutable-after-construction `Config`, built from a `ConfigData`
snapshot. -/
structure Config where
  data : ConfigData

/-- The `Session` member state: the clara parser object `m_cli` (opaque to
the orchestrator, stood in for by a token), `m_configData` and the cached
`m_config`. -/
structure SessionState where
  cli : Nat
  configData : ConfigData
  cachedConfig : Option Config

/-- `Session::config()`: returns the cached `Config` if present; otherwise
constructs one from `m_configData`, caches and returns it. -/
def SessionState.config (s : SessionState) : Config × SessionState :=
  match s.cachedConfig with
  | some c => (c, s)
  | none =>
    let c : Config := ⟨s.configData⟩
    (c, { s with cachedConfig := some c })

/-- Observable effects of the orchestrator: diagnostic-stream writes,
help/identify output, keypress waits, reporter notifications and test
execution. -/
inductive SessionEvent
  | errorOut (msg : String)
  | helpShown
  | identifyShown
  | keypressWait
  | groupStarted (groupName : String)
  | groupEnded (groupName : String)
  | testExecuted (tc : TestCase) (totals : Totals)
  | testSkipped (tc : TestCase)
  deriving DecidableEq, Repr

/-- The test case an event notifies about, if it is a per-case
notification. -/
def SessionEvent.caseOf : SessionEvent → Option TestCase
  | .testExecuted tc _ => some tc
  | .testSkipped tc => some tc
  | _ => none

/-- The per-case totals carried by an execution event. -/
def SessionEvent.executedTotals : SessionEvent → Option Totals
  | .testExecuted _ t => some t
  | _ => none

/-- Whether an event is a per-case notification (executed or skipped). -/
def SessionEvent.isTestEvent : SessionEvent → Bool
  | .testExecuted _ _ => true
  | .testSkipped _ => true
  | _ => false

/-- Whether an event is a test execution. -/
def SessionEvent.isExec : SessionEvent → Bool
  | .testExecuted _ _ => true
  | _ => false

/-- Whether an event is a skip notification. -/
def SessionEvent.isSkip : SessionEvent → Bool
  | .testSkipped _ => true
  | _ => false

/-- Per-case outcome record: the case together with `true` for executed,
`false` for skipped; `none` for non-case events. -/
def eventRecord : SessionEvent → Option (TestCase × Bool)
  | .testExecuted tc _ => some (tc, true)
  | .testSkipped tc => some (tc, false)
  | _ => none

/-- A single-quote string, used to build the reporter lookup error. -/
def squote : String :=
  String.singleton (Char.ofNat 39)

/-- The `CATCH_ENFORCE` message of `createReporter` for an unregistered
reporter name. -/
def noReporterMsg (reporterName : String) : String :=
  "No reporter registered with name: " ++ squote ++ reporterName ++ squote

/-- `createReporter`: asks the reporter registry to create the named
reporter and enforces that the lookup succeeded; a composed reporter is
represented by the ordered list of instantiated member names. -/
def createReporter (registered : List String) (reporterName : String) :
    Except String (List String) :=
  if registered.contains reporterName then Except.ok [reporterName]
  else Except.error (noReporterMsg reporterName)

/-- `addReporter`: a null reporter is replaced by the new one; otherwise
the new reporter is appended to the composite, preserving order. -/
def addReporter (existing next : List String) : List String :=
  existing ++ next

/-- The loop of `makeReporter` over the requested names, threading the
composite accumulator. -/
def makeReporterAux (registered : List String) :
    List String → List String → Except String (List String)
  | acc, [] => Except.ok acc
  | acc, n :: ns =>
    match createReporter registered n with
    | Except.error e => Except.error e
    | Except.ok r => makeReporterAux registered (addReporter acc r) ns

/-- `CATCH_CONFIG_DEFAULT_REPORTER`. -/
def defaultReporterName : String := "console"

/-- `makeReporter`: with no requested names, instantiate the fixed default
reporter; otherwise instantiate each requested name in order, folding the
results with `addReporter`. -/
def makeReporter (registered : List String) (cfg : Config) :
    Except String (List String) :=
  let reporterNames := cfg.data.reporterNames
  if reporterNames.isEmpty then createReporter registered defaultReporterName
  else makeReporterAux registered [] reporterNames

/-- `addListeners`: every globally registered listener is appended to the
composite in registration order. -/
def addListeners (reporters : List String) (listeners : List String) :
    List String :=
  listeners.foldl (fun acc l => addReporter acc [l]) reporters

/-- First requested reporter name missing from the registry, if any. -/
def firstUnregistered (registered names : List String) : Option String :=
  names.find? fun n => !registered.contains n

/-- The external collaborators consumed by the run loop and the internal
run procedure, over an abstract run-context state `σ`: the execution
engine (`RunContext::runTest` and `RunContext::aborting`), the reporter
registry contents, the registered-and-sorted test case list, the listing
facility and the startup exception registry. -/
structure RunEnv (σ : Type) where
  initCtx : σ
  aborting : σ → Bool
  runTest : σ → TestCase → Totals × σ
  registeredReporters : List String
  listeners : List String
  allTestCases : List TestCase
  listOpt : Config → Option Nat
  startupExceptions : List String

/-- The per-case loop of `runTests`: a case is executed — and its totals
merged into the accumulator — exactly when the context is not aborting and
the case matches the test spec; otherwise it is reported as skipped. The
loop always consumes the whole list. -/
def runLoop {σ : Type} (aborting : σ → Bool)
    (runTest : σ → TestCase → Totals × σ) (mt : TestCase → Bool) :
    Totals → σ → List TestCase → Totals × σ × List SessionEvent
  | totals, ctx, [] => (totals, ctx, [])
  | totals, ctx, tc :: rest =>
    if !aborting ctx && mt tc then
      let r := runTest ctx tc
      let next := runLoop aborting runTest mt (totals + r.1) r.2 rest
      (next.1, next.2.1, SessionEvent.testExecuted tc r.1 :: next.2.2)
    else
      let next := runLoop aborting runTest mt totals ctx rest
      (next.1, next.2.1, SessionEvent.testSkipped tc :: next.2.2)

/-- The effective test spec of `runTests`: the configured one if it has at
least one filter clause, else the default compiled from `~[.]`. -/
def effectiveTestSpec (cfg : Config) : TestSpec :=
  let testSpec := cfg.data.testSpec
  if testSpec.hasFilters then testSpec else defaultTestSpec

/-- `runTests`: compose the reporters and listeners, announce the single
test group, run the per-case loop under the effective test spec and
announce the group end; fails when a requested reporter is unregistered. -/
def runTests {σ : Type} (env : RunEnv σ) (cfg : Config) :
    Except String (Totals × List SessionEvent) :=
  match makeReporter env.registeredReporters cfg with
  | Except.error e => Except.error e
  | Except.ok reporter =>
    let _composite := addListeners reporter env.listeners
    let testSpec := effectiveTestSpec cfg
    let r := runLoop env.aborting env.runTest testSpec.matchesCase
      Totals.zero env.initCtx env.allTestCases
    Except.ok (r.1,
      SessionEvent.groupStarted cfg.data.name ::
        (r.2.2 ++ [SessionEvent.groupEnded cfg.data.name]))

/-- `Session::MaxExitCode`. -/
def MaxExitCode : Nat := 255

/-- The registry mutation performed before the loop when
`filenamesAsTags` is configured. -/
def taggedEnv {σ : Type} (env : RunEnv σ) (cd : ConfigData) : RunEnv σ :=
  if cd.filenamesAsTags then
    { env with allTestCases := applyFilenamesAsTags env.allTestCases }
  else env

/-- `Session::runInternal`: short-circuit to 0 on help/identify; otherwise
force the `Config`, apply the filename tagger if configured, honour a
listing request, and otherwise clamp the failed-assertion count of the run
loop's totals to `MaxExitCode`; a fault (an unregistered reporter) is
caught here, printed and turned into `MaxExitCode`. -/
def runInternal {σ : Type} (env : RunEnv σ) (s : SessionState) :
    Nat × SessionState × List SessionEvent :=
  if s.configData.showHelp || s.configData.libIdentify then (0, s, [])
  else
    let p := s.config
    let env1 := taggedEnv env s.configData
    match env1.listOpt p.1 with
    | some listed => (listed, p.2, [])
    | none =>
      match runTests env1 p.1 with
      | Except.ok r => (min MaxExitCode r.1.assertions.failed, p.2, r.2)
      | Except.error msg => (MaxExitCode, p.2, [SessionEvent.errorOut msg])

/-- The formatted parse-failure diagnostic of `applyCommandLine`,
containing the parser-supplied message. -/
def errInputMsg (parserMsg : String) : String :=
  "\nError(s) in input:\n  " ++ parserMsg ++ "\n\n"

/-- The usage pointer printed after a parse failure. -/
def usageMsg : String := "Run with -? for usage\n"

/-- `Session::applyCommandLine`: on parse failure, print the formatted
error and return `MaxExitCode`; on success install the parsed data, emit
help and/or identify output when flagged, discard the cached `Config` and
return 0. The parser behaviour is an explicit parameter. -/
def applyCommandLine
    (parse : ConfigData → List String → Except String ConfigData)
    (args : List String) (s : SessionState) :
    Nat × SessionState × List SessionEvent :=
  match parse s.configData args with
  | Except.error msg =>
    (MaxExitCode, s,
      [SessionEvent.errorOut (errInputMsg msg), SessionEvent.errorOut usageMsg])
  | Except.ok cd =>
    ((0 : Nat),
      { s with configData := cd, cachedConfig := none },
      (if cd.showHelp then [SessionEvent.helpShown] else []) ++
        (if cd.libIdentify then [SessionEvent.identifyShown] else []))

/-- The banner printed when startup exceptions are present (spelling as in
the source). -/
def startupErrBanner : String := "Errors occured during startup!"

/-- `Session::run()` (no-argument overload): optional keypress wait before
the internal run, the internal run itself, and an optional keypress wait
before exit. -/
def runSession {σ : Type} (env : RunEnv σ) (s : SessionState) :
    Nat × SessionState × List SessionEvent :=
  let pre :=
    if s.configData.waitForKeypress.hasBeforeStart then
      [SessionEvent.keypressWait]
    else []
  let r := runInternal env s
  let post :=
    if r.2.1.configData.waitForKeypress.hasBeforeExit then
      [SessionEvent.keypressWait]
    else []
  (r.1, r.2.1, pre ++ (r.2.2 ++ post))

/-- `Session::run( argc, argv )`: if the startup exception registry is
non-empty, print every recorded message and return 1 without touching the
command line; otherwise apply the command line and, when it returned 0,
proceed to the no-argument `run()`. -/
def runWithArgs {σ : Type} (env : RunEnv σ)
    (parse : ConfigData → List String → Except String ConfigData)
    (args : List String) (s : SessionState) :
    Nat × SessionState × List SessionEvent :=
  if !env.startupExceptions.isEmpty then
    (1, s,
      SessionEvent.errorOut startupErrBanner ::
        env.startupExceptions.map SessionEvent.errorOut)
  else
    let r := applyCommandLine parse args s
    if r.1 = 0 then
      let r2 := runSession env r.2.1
      (r2.1, r2.2.1, r.2.2 ++ r2.2.2)
    else r

/-! ### Concrete fixtures used to exercise the embedding -/

/-- A plain registered test case. -/
def tcW : TestCase := ⟨"widgets work", [], ⟨"dir/w.cpp", 7⟩⟩

/-- A hidden-tagged test case. -/
def tcHidden : TestCase := ⟨"hidden case", [".hide"], ⟨"dir/h.cpp", 9⟩⟩

/-- Per-case totals returned by the fixture execution engine: one passed
and two failed assertions, one failed test case. -/
def totW : Totals := ⟨⟨1, 2⟩, ⟨0, 1⟩⟩

/-- A caller-supplied test spec with no filter clauses. -/
def specNoFilters : TestSpec := ⟨false, fun _ => true⟩

/-- Configuration data for a plain run: no help, no identify, no filename
tags, no keypress waits, no requested reporters. -/
def cdW : ConfigData := ⟨"g", false, false, false, .never, [], specNoFilters⟩

/-- Configuration data with both the help and the identify flag set. -/
def cdHelpIdent : ConfigData := { cdW with showHelp := true, libIdentify := true }

/-- Configuration data requesting exactly one reporter named console. -/
def cdRep : ConfigData := { cdW with reporterNames := [defaultReporterName] }

/-- A freshly constructed session over `cdW` with no cached config. -/
def sW : SessionState := ⟨0, cdW, none⟩

/-- A session whose config data has help and identify set. -/
def sHelp : SessionState := ⟨0, cdHelpIdent, none⟩

/-- A session whose config data requests the console reporter. -/
def sRep : SessionState := ⟨0, cdRep, none⟩

/-- Fixture collaborators: a never-aborting engine returning `totW` for
every case, a registry holding only the console reporter, one registered
test case, no listing request and no startup exceptions. -/
def sampleEnv : RunEnv Nat :=
  { initCtx := 0
    aborting := fun _ => false
    runTest := fun c _ => (totW, c + 1)
    registeredReporters := [defaultReporterName]
    listeners := []
    allTestCases := [tcW]
    listOpt := fun _ => none
    startupExceptions := [] }

/-- `sampleEnv` with a recorded startup exception. -/
def envBootFail : RunEnv Nat := { sampleEnv with startupExceptions := ["boom"] }

/-- `sampleEnv` with an empty reporter registry. -/
def envNoReporter : RunEnv Nat := { sampleEnv with registeredReporters := [] }

/-- The event trace of the fixture run over `sampleEnv` and `cdW`. -/
def evsW : List SessionEvent :=
  [.groupStarted "g", .testExecuted tcW totW, .groupEnded "g"]

/-- A parser behaviour that always fails. -/
def parseFailW : ConfigData → List String → Except String ConfigData :=
  fun _ _ => Except.error "Unrecognised token"

/-- A parser behaviour that always yields `cdHelpIdent`. -/
def parseOkW : ConfigData → List String → Except String ConfigData :=
  fun _ _ => Except.ok cdHelpIdent

/-- A fixture abort predicate: the context counts executed cases and the
engine aborts from state 1 on. -/
def abtW : Nat → Bool := fun n => n == 1

/-- The fixture execution engine as a bare function. -/
def rtW : Nat → TestCase → Totals × Nat := fun c _ => (totW, c + 1)

/-- A match-everything predicate. -/
def mtW : TestCase → Bool := fun _ => true

/-- The example case of the filename tagger discussion, declared in
`a/b/MyTests.cpp`. -/
def sampleCase : TestCase := ⟨"x", [], ⟨"a/b/MyTests.cpp", 1⟩⟩

/-! ### Algebra of `Totals` -/

theorem Counts.addAssoc (a b c : Counts) : a + b + c = a + (b + c) := by
  cases a; cases b; cases c
  show Counts.add (Counts.add _ _) _ = Counts.add _ (Counts.add _ _)
  simp [Counts.add, Nat.add_assoc]

theorem Totals.add_assoc (a b c : Totals) : a + b + c = a + (b + c) := by
  cases a; cases b; cases c
  show Totals.add (Totals.add _ _) _ = Totals.add _ (Totals.add _ _)
  simp only [Totals.add, Totals.mk.injEq]
  exact ⟨Counts.addAssoc .., Counts.addAssoc ..⟩

theorem Totals.zero_add (t : Totals) : Totals.zero + t = t := by
  cases t with
  | mk a c =>
    cases a; cases c
    show Totals.add Totals.zero _ = _
    simp [Totals.add, Totals.zero, Counts.add,
      show ∀ x y : Counts, x + y = Counts.add x y from fun _ _ => rfl]

theorem Totals.add_zero (t : Totals) : t + Totals.zero = t := by
  cases t with
  | mk a c =>
    cases a; cases c
    show Totals.add _ Totals.zero = _
    simp [Totals.add, Totals.zero, Counts.add,
      show ∀ x y : Counts, x + y = Counts.add x y from fun _ _ => rfl]

theorem Totals.foldl_add_shift (ts : List Totals) :
    ∀ a : Totals, ts.foldl (· + ·) a = a + ts.foldl (· + ·) Totals.zero := by
  induction ts with
  | nil => intro a; simp [List.foldl, Totals.add_zero]
  | cons t ts ih =>
    intro a
    simp only [List.foldl]
    rw [ih (a + t), ih (Totals.zero + t), Totals.zero_add, Totals.add_assoc]

theorem Totals.sum_cons (t : Totals) (ts : List Totals) :
    Totals.sum (t :: ts) = t + Totals.sum ts := by
  show List.foldl _ _ (t :: ts) = _
  simp only [List.foldl]
  rw [Totals.foldl_add_shift, Totals.zero_add]
  rfl

/-! ### Behaviour of the per-case loop -/

theorem runLoop_caseOf {σ : Type} (abt : σ → Bool)
    (rt : σ → TestCase → Totals × σ) (mt : TestCase → Bool) :
    ∀ (l : List TestCase) (t0 : Totals) (ctx : σ),
      ((runLoop abt rt mt t0 ctx l).2.2).filterMap SessionEvent.caseOf = l ∧
      ((runLoop abt rt mt t0 ctx l).2.2).length = l.length := by
  intro l
  induction l with
  | nil => intro t0 ctx; simp [runLoop]
  | cons tc rest ih =>
    intro t0 ctx
    by_cases h : (!abt ctx && mt tc) = true
    · simp [runLoop, h, SessionEvent.caseOf, ih]
    · simp [runLoop, h, SessionEvent.caseOf, ih]

theorem runLoop_aborting {σ : Type} (abt : σ → Bool)
    (rt : σ → TestCase → Totals × σ) (mt : TestCase → Bool) :
    ∀ (l : List TestCase) (t0 : Totals) (ctx : σ), abt ctx = true →
      runLoop abt rt mt t0 ctx l = (t0, ctx, l.map SessionEvent.testSkipped) := by
  intro l
  induction l with
  | nil => intro t0 ctx _; simp [runLoop]
  | cons tc rest ih =>
    intro t0 ctx h
    have hc : (!abt ctx && mt tc) = false := by simp [h]
    simp [runLoop, hc, ih _ _ h]

theorem runLoop_totals {σ : Type} (abt : σ → Bool)
    (rt : σ → TestCase → Totals × σ) (mt : TestCase → Bool) :
    ∀ (l : List TestCase) (t0 : Totals) (ctx : σ),
      (runLoop abt rt mt t0 ctx l).1 =
        t0 + Totals.sum
          (((runLoop abt rt mt t0 ctx l).2.2).filterMap SessionEvent.executedTotals) := by
  intro l
  induction l with
  | nil =>
    intro t0 ctx
    simp [runLoop, Totals.sum, Totals.add_zero]
  | cons tc rest ih =>
    intro t0 ctx
    by_cases h : (!abt ctx && mt tc) = true
    · simp only [runLoop, h, if_true]
      rw [ih]
      simp [SessionEvent.executedTotals, Totals.sum_cons, Totals.add_assoc]
    · simp only [runLoop, h, if_false, Bool.false_eq_true]
      rw [ih]
      simp [SessionEvent.executedTotals]

theorem runLoop_record {σ : Type} (abt : σ → Bool)
    (rt : σ → TestCase → Totals × σ) (mt : TestCase → Bool)
    (hab : ∀ c, abt c = false) :
    ∀ (l : List TestCase) (t0 : Totals) (ctx : σ),
      ((runLoop abt rt mt t0 ctx l).2.2).filterMap eventRecord =
        l.map fun tc => (tc, mt tc) := by
  intro l
  induction l with
  | nil => intro t0 ctx; simp [runLoop]
  | cons tc rest ih =>
    intro t0 ctx
    by_cases hm : mt tc = true
    · simp [runLoop, hab ctx, hm, eventRecord, ih]
    · simp [runLoop, hab ctx, hm, eventRecord, ih]

/-! ### Claims -/

/-- C2: the run loop gives each registered case exactly one notification
(executed or skipped) and never returns early; from an aborting context
every case is reported as skipped without execution and the totals are
untouched; the final totals are the associative merge-fold of the totals
of exactly the executed cases. -/
theorem runLoop_eachCaseOnce_abortSkips {σ : Type} (abt : σ → Bool)
    (rt : σ → TestCase → Totals × σ) (mt : TestCase → Bool)
    (ctx : σ) (tcs : List TestCase) :
    (((runLoop abt rt mt Totals.zero ctx tcs).2.2).filterMap
        SessionEvent.caseOf = tcs) ∧
    (((runLoop abt rt mt Totals.zero ctx tcs).2.2).length = tcs.length) ∧
    ((runLoop abt rt mt Totals.zero ctx tcs).1 =
      Totals.sum (((runLoop abt rt mt Totals.zero ctx tcs).2.2).filterMap
        SessionEvent.executedTotals)) ∧
    (abt ctx = true →
      runLoop abt rt mt Totals.zero ctx tcs =
        (Totals.zero, ctx, tcs.map SessionEvent.testSkipped)) ∧
    (∀ a b c : Totals, a + b + c = a + (b + c)) := by
  refine ⟨(runLoop_caseOf abt rt mt tcs Totals.zero ctx).1,
    (runLoop_caseOf abt rt mt tcs Totals.zero ctx).2, ?_, ?_, Totals.add_assoc⟩
  · rw [runLoop_totals abt rt mt tcs Totals.zero ctx, Totals.zero_add]
  · exact runLoop_aborting abt rt mt tcs Totals.zero ctx

/-- C2 witness: from an already-aborting context the single registered
case is skipped and the totals stay zero. -/
theorem runLoop_eachCaseOnce_abortSkips_witness :
    runLoop abtW rtW mtW Totals.zero 1 [tcW] =
      (Totals.zero, 1, [SessionEvent.testSkipped tcW]) :=
  (runLoop_eachCaseOnce_abortSkips abtW rtW mtW 1 [tcW]).2.2.2.1 rfl

/-- C3: when the configured test spec has no filter clauses the effective
spec is the default compiled from the hidden-tag exclusion expression, and
under a non-aborting context every non-hidden-tagged case is executed
exactly once, every hidden-tagged case is skipped exactly once, and no
case is both. -/
theorem runTests_defaultSpec_hidden {σ : Type} (env : RunEnv σ) (cfg : Config)
    (tot : Totals) (evs : List SessionEvent)
    (hnf : cfg.data.testSpec.hasFilters = false)
    (hab : ∀ c, env.aborting c = false)
    (hrun : runTests env cfg = Except.ok (tot, evs)) :
    effectiveTestSpec cfg = defaultTestSpec ∧
    evs.filterMap eventRecord =
      env.allTestCases.map fun tc => (tc, !(tc.tags.any isHiddenTag)) := by
  have hspec : effectiveTestSpec cfg = defaultTestSpec := by
    simp [effectiveTestSpec, hnf]
  refine ⟨hspec, ?_⟩
  unfold runTests at hrun
  cases hmk : makeReporter env.registeredReporters cfg with
  | error e => rw [hmk] at hrun; exact absurd hrun (by simp)
  | ok rep =>
    rw [hmk] at hrun
    simp only [Except.ok.injEq, Prod.mk.injEq] at hrun
    rw [← hrun.2]
    have hr := runLoop_record env.aborting env.runTest
      (effectiveTestSpec cfg).matchesCase hab env.allTestCases
      Totals.zero env.initCtx
    rw [hspec] at hr ⊢
    simp only [List.filterMap_cons, List.filterMap_append, eventRecord,
      List.filterMap_nil, List.append_nil]
    exact hr

/-- C3 witness: the fixture run over one unhidden case executes it exactly
once. -/
theorem runTests_defaultSpec_hidden_witness :
    List.filterMap eventRecord evsW = [(tcW, true)] := by
  have h := runTests_defaultSpec_hidden sampleEnv ⟨cdW⟩ totW evsW rfl
    (fun _ => rfl) rfl
  simpa using h.2

/-- C1: when the session proceeds to test execution (no help, no identify,
no listing) the internal run procedure returns `min(MaxExitCode,
failedAssertionCount)`; this is 0 exactly when no assertion failed, equals
the failed-assertion count up to 254 and is capped at 255 beyond. -/
theorem runInternal_exitCode {σ : Type} (env : RunEnv σ) (s : SessionState)
    (tot : Totals) (evs : List SessionEvent)
    (hh : s.configData.showHelp = false)
    (hi : s.configData.libIdentify = false)
    (hl : (taggedEnv env s.configData).listOpt s.config.1 = none)
    (hrun : runTests (taggedEnv env s.configData) s.config.1 =
      Except.ok (tot, evs)) :
    runInternal env s =
      (min MaxExitCode tot.assertions.failed, s.config.2, evs) ∧
    ((runInternal env s).1 = 0 ↔ tot.assertions.failed = 0) ∧
    (tot.assertions.failed ≤ 254 →
      (runInternal env s).1 = tot.assertions.failed) ∧
    (255 ≤ tot.assertions.failed → (runInternal env s).1 = 255) := by
  have hmain : runInternal env s =
      (min MaxExitCode tot.assertions.failed, s.config.2, evs) := by
    unfold runInternal
    rw [hh, hi]
    simp only [Bool.or_self, Bool.false_eq_true, if_false]
    rw [hl, hrun]
  refine ⟨hmain, ?_, ?_, ?_⟩ <;>
    · rw [hmain]
      simp only [MaxExitCode]
      omega

/-- C1 witness: the fixture run has two failed assertions and exit code
2. -/
theorem runInternal_exitCode_witness : (runInternal sampleEnv sW).1 = 2 := by
  have h := runInternal_exitCode sampleEnv sW totW evsW rfl rfl rfl rfl
  rw [h.1]
  decide

/-- C4: on every parser failure `applyCommandLine` leaves the session
state untouched (in particular no `Config` is constructed), writes the
formatted error containing the parser-supplied message followed by the
usage pointer, and returns exactly 255. -/
theorem applyCommandLine_parseFail
    (parse : ConfigData → List String → Except String ConfigData)
    (args : List String) (s : SessionState) (msg : String)
    (h : parse s.configData args = Except.error msg) :
    applyCommandLine parse args s =
      (255, s, [SessionEvent.errorOut (errInputMsg msg),
        SessionEvent.errorOut usageMsg]) ∧
    (∃ pre post, errInputMsg msg = pre ++ msg ++ post) ∧
    MaxExitCode = 255 := by
  unfold applyCommandLine
  rw [h]
  exact ⟨rfl, ⟨"\nError(s) in input:\n  ", "\n\n", rfl⟩, rfl⟩

/-- C4 witness: the always-failing fixture parser yields exit code 255 and
the two diagnostic writes, leaving the state unchanged. -/
theorem applyCommandLine_parseFail_witness :
    applyCommandLine parseFailW [] sW =
      (255, sW, [SessionEvent.errorOut (errInputMsg "Unrecognised token"),
        SessionEvent.errorOut usageMsg]) :=
  (applyCommandLine_parseFail parseFailW [] sW "Unrecognised token" rfl).1

/-- C5: with a non-empty startup-exception collection `run(argc, argv)`
prints the banner and every recorded message and returns exactly 1 without
touching the command line or any test; with an empty collection it returns
the result of `applyCommandLine` unchanged when non-zero and otherwise the
result of the no-argument `run()`. -/
theorem runWithArgs_startupExceptions {σ : Type} (env : RunEnv σ)
    (parse : ConfigData → List String → Except String ConfigData)
    (args : List String) (s : SessionState) :
    (env.startupExceptions ≠ [] →
      runWithArgs env parse args s =
        (1, s, SessionEvent.errorOut startupErrBanner ::
          env.startupExceptions.map SessionEvent.errorOut)) ∧
    (env.startupExceptions = [] →
      ((applyCommandLine parse args s).1 ≠ 0 →
        runWithArgs env parse args s = applyCommandLine parse args s) ∧
      ((applyCommandLine parse args s).1 = 0 →
        runWithArgs env parse args s =
          ((runSession env (applyCommandLine parse args s).2.1).1,
            (runSession env (applyCommandLine parse args s).2.1).2.1,
            (applyCommandLine parse args s).2.2 ++
              (runSession env (applyCommandLine parse args s).2.1).2.2))) := by
  constructor
  · intro h
    have hne : env.startupExceptions.isEmpty = false := by
      cases hE : env.startupExceptions with
      | nil => exact absurd hE h
      | cons a l => rfl
    simp [runWithArgs, hne]
  · intro h
    have hem : env.startupExceptions.isEmpty = true := by rw [h]; rfl
    constructor
    · intro hnz
      simp [runWithArgs, hem, hnz]
    · intro hz
      simp [runWithArgs, hem, hz]

/-- C5 witness: with one recorded startup exception the fixture session
returns 1 and prints the banner and the message. -/
theorem runWithArgs_startupExceptions_witness :
    runWithArgs envBootFail parseOkW [] sW =
      (1, sW, SessionEvent.errorOut startupErrBanner ::
        envBootFail.startupExceptions.map SessionEvent.errorOut) :=
  (runWithArgs_startupExceptions envBootFail parseOkW [] sW).1 (by decide)

/-! ### Reporter lookup failure propagation -/

theorem taggedEnv_registered {σ : Type} (env : RunEnv σ) (cd : ConfigData) :
    (taggedEnv env cd).registeredReporters = env.registeredReporters := by
  unfold taggedEnv
  split <;> rfl

theorem makeReporterAux_error (registered : List String) :
    ∀ (names acc : List String) (bad : String),
      names.find? (fun n => !registered.contains n) = some bad →
      makeReporterAux registered acc names = Except.error (noReporterMsg bad) := by
  intro names
  induction names with
  | nil => intro acc bad h; simp [List.find?] at h
  | cons n ns ih =>
    intro acc bad h
    by_cases hc : registered.contains n = true
    · have hcr : createReporter registered n = Except.ok [n] := by
        unfold createReporter
        rw [if_pos hc]
      rw [List.find?_cons_of_neg _ (by simpa using hc)] at h
      simp only [makeReporterAux, hcr]
      exact ih _ _ h
    · have hcr : createReporter registered n = Except.error (noReporterMsg n) := by
        unfold createReporter
        rw [if_neg hc]
      rw [List.find?_cons_of_pos _ (by simpa using hc)] at h
      injection h with hnb
      subst hnb
      simp only [makeReporterAux, hcr]

theorem makeReporter_error (registered : List String) (cfg : Config)
    (bad : String)
    (h : firstUnregistered registered cfg.data.reporterNames = some bad) :
    makeReporter registered cfg = Except.error (noReporterMsg bad) := by
  have hne : cfg.data.reporterNames.isEmpty = false := by
    cases hE : cfg.data.reporterNames with
    | nil => unfold firstUnregistered at h; rw [hE] at h; simp at h
    | cons a l => rfl
  unfold makeReporter
  simp only [hne, Bool.false_eq_true, if_false]
  exact makeReporterAux_error registered _ [] bad h

theorem runTests_reporterError {σ : Type} (env : RunEnv σ) (cfg : Config)
    (bad : String)
    (h : firstUnregistered env.registeredReporters cfg.data.reporterNames =
      some bad) :
    runTests env cfg = Except.error (noReporterMsg bad) := by
  unfold runTests
  rw [makeReporter_error env.registeredReporters cfg bad h]

theorem firstUnregistered_isSome (registered names : List String)
    (rn : String) (hm : rn ∈ names) (hc : registered.contains rn = false) :
    (firstUnregistered registered names).isSome = true := by
  unfold firstUnregistered
  rw [List.find?_isSome]
  exact ⟨rn, hm, by simpa using hc⟩

/-- C6: when some requested reporter name is unregistered, reporter
creation fails with the named-lookup message for the first such name, the
fault is caught at the session boundary yielding exit code 255 and a
single diagnostic write with zero test cases executed; a request for an
unregistered name guarantees such a first offender exists; and with no
requested names exactly one reporter is instantiated under the fixed
default identifier. -/
theorem unregisteredReporter_faults {σ : Type} (env : RunEnv σ)
    (s : SessionState) (rn bad : String) :
    (firstUnregistered env.registeredReporters
        (s.config.1).data.reporterNames = some bad →
      s.configData.showHelp = false →
      s.configData.libIdentify = false →
      (taggedEnv env s.configData).listOpt s.config.1 = none →
      makeReporter env.registeredReporters s.config.1 =
        Except.error (noReporterMsg bad) ∧
      runInternal env s =
        (255, s.config.2, [SessionEvent.errorOut (noReporterMsg bad)]) ∧
      (([SessionEvent.errorOut (noReporterMsg bad)].all
        fun e => !e.isExec) = true)) ∧
    (rn ∈ (s.config.1).data.reporterNames →
      env.registeredReporters.contains rn = false →
      (firstUnregistered env.registeredReporters
        (s.config.1).data.reporterNames).isSome = true) ∧
    ((s.config.1).data.reporterNames = [] →
      env.registeredReporters.contains defaultReporterName = true →
      makeReporter env.registeredReporters s.config.1 =
        Except.ok [defaultReporterName]) := by
  refine ⟨?_, ?_, ?_⟩
  · intro hfu hh hi hl
    have hmk := makeReporter_error env.registeredReporters s.config.1 bad hfu
    have hfu2 : firstUnregistered
        (taggedEnv env s.configData).registeredReporters
        (s.config.1).data.reporterNames = some bad := by
      rw [taggedEnv_registered]
      exact hfu
    have hrt := runTests_reporterError (taggedEnv env s.configData)
      s.config.1 bad hfu2
    refine ⟨hmk, ?_, rfl⟩
    unfold runInternal
    rw [hh, hi]
    simp only [Bool.or_self, Bool.false_eq_true, if_false]
    rw [hl, hrt]
    rfl
  · intro hm hc
    exact firstUnregistered_isSome env.registeredReporters _ rn hm hc
  · intro hempty hconsole
    simp only [makeReporter, hempty, List.isEmpty_nil, if_true]
    unfold createReporter
    rw [if_pos hconsole]

/-- C6 witness: with an empty registry and a request for the console
reporter the fixture session exits with 255 after a single diagnostic
write, and with no requested names the console registry entry yields
exactly one default reporter. -/
theorem unregisteredReporter_faults_witness :
    runInternal envNoReporter sRep =
      (255, sRep.config.2,
        [SessionEvent.errorOut (noReporterMsg defaultReporterName)]) ∧
    makeReporter sampleEnv.registeredReporters sW.config.1 =
      Except.ok [defaultReporterName] := by
  refine ⟨((unregisteredReporter_faults envNoReporter sRep
    defaultReporterName defaultReporterName).1 rfl rfl rfl rfl).2.1, ?_⟩
  exact (unregisteredReporter_faults sampleEnv sW defaultReporterName
    defaultReporterName).2.2 rfl (by decide)

/-- C7: the filename tagger appends to every registered case exactly one
tag, the sentinel `#` followed by the stem of the declaring file; the stem
strips everything up to and including the last `/` or `\` and everything
from the last `.` onward; for `a/b/MyTests.cpp` the added tag is
`#MyTests`, and a path without a directory separator loses only its
extension. -/
theorem applyFilenamesAsTags_appendsStemTag :
    (∀ tests : List TestCase,
      applyFilenamesAsTags tests =
        tests.map fun tc =>
          { tc with tags := tc.tags ++ ["#" ++ filenameStem tc.lineInfo.file] }) ∧
    filenameStem "a/b/MyTests.cpp" = "MyTests" ∧
    "#" ++ filenameStem "a/b/MyTests.cpp" = "#MyTests" ∧
    filenameStem "a\\b\\MyTests.cpp" = "MyTests" ∧
    filenameStem "NoSeparator.onlyext.cpp" = "NoSeparator.onlyext" := by
  refine ⟨?_, by decide, by decide, by decide, by decide⟩
  intro tests
  unfold applyFilenamesAsTags
  refine List.map_congr_left fun tc _ => ?_
  show setTags tc _ = _
  unfold setTags
  have hs : ∀ str : String, String.mk ('#' :: str.data) = "#" ++ str := by
    intro str
    cases str
    rfl
  rw [hs]

/-- C8: the filename tagger is not idempotent: applying it twice to the
example case accumulates a duplicate `#MyTests` tag, so the tagger
composed with itself differs from the tagger alone. -/
theorem applyFilenamesAsTags_not_idempotent :
    applyFilenamesAsTags (applyFilenamesAsTags [sampleCase]) ≠
      applyFilenamesAsTags [sampleCase] ∧
    applyFilenamesAsTags ∘ applyFilenamesAsTags ≠ applyFilenamesAsTags := by
  have h1 : applyFilenamesAsTags (applyFilenamesAsTags [sampleCase]) ≠
      applyFilenamesAsTags [sampleCase] := by decide
  exact ⟨h1, fun h => h1 (congrFun h [sampleCase])⟩

/-- C9: when the parsed config data has the help or the identify flag set,
`applyCommandLine` emits the corresponding output and returns 0 with no
test-case notification, and the internal run procedure short-circuits to 0
with no event at all. -/
theorem helpIdentify_shortCircuit {σ : Type} (env : RunEnv σ)
    (parse : ConfigData → List String → Except String ConfigData)
    (args : List String) (s : SessionState) (cd : ConfigData) :
    (parse s.configData args = Except.ok cd →
      (cd.showHelp = true ∨ cd.libIdentify = true) →
      (applyCommandLine parse args s).1 = 0 ∧
      ((applyCommandLine parse args s).2.2.all fun e => !e.isTestEvent) = true ∧
      (cd.showHelp = true →
        SessionEvent.helpShown ∈ (applyCommandLine parse args s).2.2) ∧
      (cd.libIdentify = true →
        SessionEvent.identifyShown ∈ (applyCommandLine parse args s).2.2)) ∧
    ((s.configData.showHelp = true ∨ s.configData.libIdentify = true) →
      runInternal env s = (0, s, [])) := by
  constructor
  · intro hp _hflag
    unfold applyCommandLine
    rw [hp]
    refine ⟨rfl, ?_, ?_, ?_⟩
    · cases hS : cd.showHelp <;> cases hI : cd.libIdentify <;>
        simp [SessionEvent.isTestEvent]
    · intro hS
      simp [hS]
    · intro hI
      simp [hI]
  · intro hflag
    unfold runInternal
    have hc : (s.configData.showHelp || s.configData.libIdentify) = true := by
      rcases hflag with h | h <;> simp [h]
    rw [hc]
    simp

/-- C9 witness: the fixture parser sets both flags; the command line
application returns 0 and the internal run procedure of a session with the
flags set returns 0 with no events. -/
theorem helpIdentify_shortCircuit_witness :
    (applyCommandLine parseOkW [] sW).1 = 0 ∧
    runInternal sampleEnv sHelp = (0, sHelp, []) := by
  refine ⟨((helpIdentify_shortCircuit sampleEnv parseOkW [] sW
    cdHelpIdent).1 rfl (Or.inl rfl)).1, ?_⟩
  exact (helpIdentify_shortCircuit sampleEnv parseOkW [] sHelp
    cdHelpIdent).2 (Or.inl rfl)

/-- C10: on every successful parse `applyCommandLine` installs the parsed
data, emits help and identify output when flagged (both when both), always
clears the cached config and leaves the parser token and the installed
config data untouched; a subsequent `config()` rebuilds the `Config` from
the current config data. -/
theorem applyCommandLine_resetsConfig
    (parse : ConfigData → List String → Except String ConfigData)
    (args : List String) (s : SessionState) (cd : ConfigData)
    (hp : parse s.configData args = Except.ok cd) :
    applyCommandLine parse args s =
      (0, { cli := s.cli, configData := cd, cachedConfig := none },
        (if cd.showHelp then [SessionEvent.helpShown] else []) ++
          (if cd.libIdentify then [SessionEvent.identifyShown] else [])) ∧
    (applyCommandLine parse args s).2.1.config =
      (⟨cd⟩,
        { cli := s.cli, configData := cd, cachedConfig := some ⟨cd⟩ }) := by
  have h1 : applyCommandLine parse args s =
      (0, { cli := s.cli, configData := cd, cachedConfig := none },
        (if cd.showHelp then [SessionEvent.helpShown] else []) ++
          (if cd.libIdentify then [SessionEvent.identifyShown] else [])) := by
    unfold applyCommandLine
    rw [hp]
  refine ⟨h1, ?_⟩
  rw [h1]
  rfl

/-- C10 witness: the fixture parser succeeds with both flags set; the
cache is cleared, both outputs are emitted and `config()` rebuilds from
the parsed data. -/
theorem applyCommandLine_resetsConfig_witness :
    applyCommandLine parseOkW [] sW =
      (0, { cli := sW.cli, configData := cdHelpIdent, cachedConfig := none },
        [SessionEvent.helpShown, SessionEvent.identifyShown]) ∧
    (applyCommandLine parseOkW [] sW).2.1.config =
      (⟨cdHelpIdent⟩,
        { cli := sW.cli, configData := cdHelpIdent,
          cachedConfig := some ⟨cdHelpIdent⟩ }) := by
  have h := applyCommandLine_resetsConfig parseOkW [] sW cdHelpIdent rfl
  exact ⟨h.1.trans rfl, h.2⟩
